import Mathlib

/-!
Verification of the two-stage failure-prediction pipeline of the
Fleet_maintainance_prediction repository.

Shallow embedding conventions:
* probabilities are rationals (`ℚ`); floating point is abstracted to exact
  rational arithmetic, and Python's `round(x, 3)` is modelled as rounding
  `1000 * x` to the nearest integer (tie behaviour is irrelevant to every
  claim considered here);
* a pandas cell that `reindex` fills with NaN is modelled as `none : Option ℚ`;
* a raised Python exception is modelled as `Except.error` carrying the
  exception text;
* the two pickled classifier artifacts are opaque data: they enter the
  embedding as the functions `stage1Proba` (the value
  `stage1_model.predict_proba(X)[0, 1]`) and `stage2Proba` (the list whose
  `i`-th entry is `stage2_model.predict_proba(X_array)[i][0, 1]`, one entry
  per output channel, as a total function of the channel index).
-/

/-- `round(x, 3)` from `predictor.py`: round to 3 decimal places. -/
def round3 (q : ℚ) : ℚ := (round (1000 * q) : ℤ) / 1000

/-- The aligned feature row: `X = pd.DataFrame([input_data])` followed by
`X = X.reindex(columns=STAGE1_FEATURES)` (`predictor.py` lines 23–24).
Input fields absent from the vocabulary are dropped; vocabulary fields
absent from the input become the NaN placeholder `none`. -/
def reindex (input_data : List (String × ℚ)) (features : List String) :
    List (Option ℚ) :=
  features.map (fun f => input_data.lookup f)

/-- The module-level artifacts of `predictor.py` (lines 7–18), after
`joblib.load`: the Stage-1 threshold and feature vocabulary, the two
classifier artifacts (as probability functions on the aligned row), and the
shared config's per-mode thresholds and mode vocabulary. -/
structure Artifacts where
  STAGE1_THRESHOLD : ℚ
  STAGE1_FEATURES : List String
  stage1Proba : List (Option ℚ) → ℚ
  stage2Proba : List (Option ℚ) → Nat → ℚ
  FAILURE_THRESHOLDS : List (String × ℚ)
  FAILURE_COLS : List String

/-- The dict returned by `predict_machine_failure`. -/
structure PredictionResult where
  failure : Nat
  failure_probability : ℚ
  failure_types : Option (List (String × ℚ))
deriving Repr, DecidableEq

/-- The Stage-2 loop of `predict_machine_failure` (lines 46–50):
`for i, col in enumerate(FAILURE_COLS): prob = probs[i][0, 1];
if prob >= FAILURE_THRESHOLDS[col]: failure_types[col] = round(float(prob), 3)`.
`FAILURE_THRESHOLDS[col]` on a missing key raises `KeyError`, modelled as
`Except.error`.  Returns the accumulated `failure_types` association list in
insertion order. -/
def detectLoop (thresholds : List (String × ℚ)) (probaAt : Nat → ℚ) :
    Nat → List String → Except String (List (String × ℚ))
  | _, [] => Except.ok []
  | i, col :: rest =>
      match thresholds.lookup col with
      | none => Except.error ("KeyError: " ++ col)
      | some t =>
          let prob := probaAt i
          match detectLoop thresholds probaAt (i + 1) rest with
          | Except.error e => Except.error e
          | Except.ok tail =>
              if prob ≥ t then Except.ok ((col, round3 prob) :: tail)
              else Except.ok tail

/-- `predict_machine_failure(input_data)` from `predictor.py` (lines 21–59). -/
def predict_machine_failure (A : Artifacts) (input_data : List (String × ℚ)) :
    Except String PredictionResult :=
  let X := reindex input_data A.STAGE1_FEATURES
  let p_fail := A.stage1Proba X
  if p_fail < A.STAGE1_THRESHOLD then
    Except.ok ⟨0, round3 p_fail, none⟩
  else
    match detectLoop A.FAILURE_THRESHOLDS (A.stage2Proba X) 0 A.FAILURE_COLS with
    | Except.error e => Except.error e
    | Except.ok failure_types =>
        let failure_types :=
          if failure_types.isEmpty then [("RNF", round3 p_fail)]
          else failure_types
        Except.ok ⟨1, round3 p_fail, some failure_types⟩

/-- Instrumented variant of `predict_machine_failure` that additionally
counts how many times `stage2_model.predict_proba` is evaluated (the source
calls it exactly once, on line 43, and only after the gate check on line 31
has not short-circuited). -/
def predict_machine_failure_instr (A : Artifacts)
    (input_data : List (String × ℚ)) :
    Except String PredictionResult × Nat :=
  let X := reindex input_data A.STAGE1_FEATURES
  let p_fail := A.stage1Proba X
  if p_fail < A.STAGE1_THRESHOLD then
    (Except.ok ⟨0, round3 p_fail, none⟩, 0)
  else
    match detectLoop A.FAILURE_THRESHOLDS (A.stage2Proba X) 0 A.FAILURE_COLS with
    | Except.error e => (Except.error e, 1)
    | Except.ok failure_types =>
        let failure_types :=
          if failure_types.isEmpty then [("RNF", round3 p_fail)]
          else failure_types
        (Except.ok ⟨1, round3 p_fail, some failure_types⟩, 1)

/-! ### Helper lemmas about `round3` and `detectLoop` -/

lemma round3_nonneg (q : ℚ) (h : 0 ≤ q) : 0 ≤ round3 q := by
  unfold round3
  have h0 : (0 : ℤ) ≤ round (1000 * q) := by
    rw [round_eq]
    have : (0 : ℤ) = ⌊(1 / 2 : ℚ)⌋ := by norm_num
    rw [this]
    exact Int.floor_le_floor (by linarith)
  have : (0 : ℚ) ≤ (round (1000 * q) : ℤ) := by exact_mod_cast h0
  apply div_nonneg this (by norm_num)

lemma round3_le_one (q : ℚ) (h : q ≤ 1) : round3 q ≤ 1 := by
  unfold round3
  have h0 : round (1000 * q) ≤ (1000 : ℤ) := by
    rw [round_eq]
    have h1 : ⌊(1000 + 1 / 2 : ℚ)⌋ = (1000 : ℤ) := by norm_num
    rw [← h1]
    exact Int.floor_le_floor (by linarith)
  rw [div_le_one (by norm_num)]
  exact_mod_cast h0

lemma round3_den (q : ℚ) : (1000 * round3 q).den = 1 := by
  unfold round3
  have : (1000 : ℚ) * ((round (1000 * q) : ℤ) / 1000) = (round (1000 * q) : ℤ) := by
    field_simp
  rw [this, Rat.den_intCast]

/-- If every mode column has a threshold entry, the Stage-2 loop completes
without a `KeyError`. -/
lemma detectLoop_ok (ths : List (String × ℚ)) (probaAt : Nat → ℚ) :
    ∀ (cols : List String) (i : Nat),
      (∀ col ∈ cols, (ths.lookup col).isSome) →
      ∃ l, detectLoop ths probaAt i cols = Except.ok l := by
  intro cols
  induction cols with
  | nil => intro i _; exact ⟨[], rfl⟩
  | cons c rest ih =>
      intro i hc
      have hcsome : (ths.lookup c).isSome := hc c (by simp)
      obtain ⟨t, ht⟩ := Option.isSome_iff_exists.mp hcsome
      obtain ⟨tail, htail⟩ := ih (i + 1) (fun col hcol => hc col (by simp [hcol]))
      by_cases hge : probaAt i ≥ t
      · exact ⟨(c, round3 (probaAt i)) :: tail, by
          simp only [detectLoop, ht, htail]; rw [if_pos hge]⟩
      · exact ⟨tail, by simp only [detectLoop, ht, htail]; rw [if_neg hge]⟩

/-- If some mode column has no threshold entry, the Stage-2 loop raises. -/
lemma detectLoop_error (ths : List (String × ℚ)) (probaAt : Nat → ℚ) :
    ∀ (cols : List String) (i : Nat) (col : String),
      col ∈ cols → ths.lookup col = none →
      ∃ e, detectLoop ths probaAt i cols = Except.error e := by
  intro cols
  induction cols with
  | nil => intro i col h _; simp at h
  | cons c rest ih =>
      intro i col hmem hnone
      rcases List.mem_cons.mp hmem with hhead | htail
      · subst hhead
        exact ⟨"KeyError: " ++ col, by simp only [detectLoop, hnone]⟩
      · cases hc : ths.lookup c with
        | none => exact ⟨"KeyError: " ++ c, by simp only [detectLoop, hc]⟩
        | some t =>
            obtain ⟨e, he⟩ := ih (i + 1) col htail hnone
            exact ⟨e, by simp only [detectLoop, hc, he]⟩

/-- Exact characterization of the entries collected by the Stage-2 loop:
`(col, v)` ends up in the accumulated mapping iff `col` sits at some channel
`j` of the mode vocabulary, `v` is its probability rounded to 3 decimals,
and that probability meets the mode's own threshold (inclusive `≥`). -/
lemma detectLoop_mem (ths : List (String × ℚ)) (probaAt : Nat → ℚ) :
    ∀ (cols : List String) (i : Nat) (l : List (String × ℚ)),
      detectLoop ths probaAt i cols = Except.ok l →
      ∀ e : String × ℚ, e ∈ l ↔
        ∃ j col, cols.get? j = some col ∧
          e = (col, round3 (probaAt (i + j))) ∧
          ∃ t, ths.lookup col = some t ∧ t ≤ probaAt (i + j) := by
  intro cols
  induction cols with
  | nil =>
      intro i l h e
      simp only [detectLoop] at h
      cases h
      simp
  | cons c rest ih =>
      intro i l h e
      simp only [detectLoop] at h
      cases hc : ths.lookup c with
      | none => rw [hc] at h; cases h
      | some t =>
          rw [hc] at h
          dsimp only at h
          cases hrec : detectLoop ths probaAt (i + 1) rest with
          | error e' => rw [hrec] at h; cases h
          | ok tail =>
              rw [hrec] at h
              dsimp only at h
              have hiff := ih (i + 1) tail hrec
              by_cases hge : probaAt i ≥ t
              · rw [if_pos hge] at h
                cases h
                constructor
                · intro hmem
                  rcases List.mem_cons.mp hmem with hhead | htail
                  · exact ⟨0, c, by simp, by simpa using hhead, t, hc, by simpa using hge⟩
                  · obtain ⟨j, col, hj, he, t', ht', hle⟩ := (hiff e).mp htail
                    exact ⟨j + 1, col, by simpa using hj,
                      by simpa [Nat.add_assoc, Nat.add_comm 1 j] using he, t', ht',
                      by simpa [Nat.add_assoc, Nat.add_comm 1 j] using hle⟩
                · rintro ⟨j, col, hj, he, t', ht', hle⟩
                  cases j with
                  | zero =>
                      simp only [List.get?_cons_zero, Option.some.injEq] at hj
                      subst hj
                      simp only [Nat.add_zero] at he
                      exact List.mem_cons.mpr (Or.inl he)
                  | succ j' =>
                      refine List.mem_cons.mpr (Or.inr ?_)
                      refine (hiff e).mpr ⟨j', col, by simpa using hj, ?_, t', ht', ?_⟩
                      · simpa [Nat.add_assoc, Nat.add_comm 1 j'] using he
                      · simpa [Nat.add_assoc, Nat.add_comm 1 j'] using hle
              · rw [if_neg hge] at h
                cases h
                constructor
                · intro hmem
                  obtain ⟨j, col, hj, he, t', ht', hle⟩ := (hiff e).mp hmem
                  exact ⟨j + 1, col, by simpa using hj,
                    by simpa [Nat.add_assoc, Nat.add_comm 1 j] using he, t', ht',
                    by simpa [Nat.add_assoc, Nat.add_comm 1 j] using hle⟩
                · rintro ⟨j, col, hj, he, t', ht', hle⟩
                  cases j with
                  | zero =>
                      simp only [List.get?_cons_zero, Option.some.injEq] at hj
                      subst hj
                      rw [hc] at ht'
                      cases ht'
                      simp only [Nat.add_zero] at hle
                      exact absurd hle hge
                  | succ j' =>
                      refine (hiff e).mpr ⟨j', col, by simpa using hj, ?_, t', ht', ?_⟩
                      · simpa [Nat.add_assoc, Nat.add_comm 1 j'] using he
                      · simpa [Nat.add_assoc, Nat.add_comm 1 j'] using hle

/-! ### Concrete artifact sets used by the witnesses -/

/-- Demo artifacts whose gate probability (3/10) is below the gate
threshold (1/2). -/
def demoLow : Artifacts where
  STAGE1_THRESHOLD := 1 / 2
  STAGE1_FEATURES := ["Air_temperature", "Torque"]
  stage1Proba := fun _ => 3 / 10
  stage2Proba := fun _ _ => 9 / 10
  FAILURE_THRESHOLDS := [("TWF", 7 / 10), ("HDF", 1 / 2)]
  FAILURE_COLS := ["TWF", "HDF"]

/-- Demo artifacts whose gate probability (4/5) is above the gate threshold;
mode channel 0 ("TWF", probability 9/10 ≥ 7/10) is detected, channel 1
("HDF", probability 1/5 < 1/2) is not. -/
def demoHigh : Artifacts where
  STAGE1_THRESHOLD := 1 / 2
  STAGE1_FEATURES := ["Air_temperature", "Torque"]
  stage1Proba := fun _ => 4 / 5
  stage2Proba := fun _ i => if i = 0 then 9 / 10 else 1 / 5
  FAILURE_THRESHOLDS := [("TWF", 7 / 10), ("HDF", 1 / 2)]
  FAILURE_COLS := ["TWF", "HDF"]

/-- Demo artifacts where the gate fires (3/5 ≥ 1/2) but every mode
probability (1/10) is below its threshold, forcing the fallback. -/
def demoFallback : Artifacts where
  STAGE1_THRESHOLD := 1 / 2
  STAGE1_FEATURES := ["Air_temperature", "Torque"]
  stage1Proba := fun _ => 3 / 5
  stage2Proba := fun _ _ => 1 / 10
  FAILURE_THRESHOLDS := [("TWF", 7 / 10), ("HDF", 1 / 2)]
  FAILURE_COLS := ["TWF", "HDF"]

/-- Demo artifacts where the gate fires and both mode probabilities (9/10)
meet their thresholds, so two modes co-occur in the output. -/
def demoBoth : Artifacts where
  STAGE1_THRESHOLD := 1 / 2
  STAGE1_FEATURES := ["Air_temperature", "Torque"]
  stage1Proba := fun _ => 4 / 5
  stage2Proba := fun _ _ => 9 / 10
  FAILURE_THRESHOLDS := [("TWF", 7 / 10), ("HDF", 1 / 2)]
  FAILURE_COLS := ["TWF", "HDF"]

/-! ### Claim theorems -/

/-- C1: if the Stage-1 gate probability is strictly below the gate
threshold, `predict_machine_failure` returns exactly
`{failure: 0, failure_probability: round(p_gate, 3), failure_types: null}`
and the Stage-2 mode classifier is never invoked (the instrumented call
count of `stage2_model.predict_proba` is 0). -/
theorem gate_short_circuit (A : Artifacts) (input_data : List (String × ℚ))
    (h : A.stage1Proba (reindex input_data A.STAGE1_FEATURES) <
      A.STAGE1_THRESHOLD) :
    predict_machine_failure A input_data =
      Except.ok ⟨0, round3 (A.stage1Proba (reindex input_data A.STAGE1_FEATURES)),
        none⟩ ∧
    (predict_machine_failure_instr A input_data).2 = 0 := by
  constructor
  · simp only [predict_machine_failure]
    rw [if_pos h]
  · simp only [predict_machine_failure_instr]
    rw [if_pos h]

theorem gate_short_circuit_witness :
    demoLow.stage1Proba (reindex [("Air_temperature", (298 : ℚ))]
      demoLow.STAGE1_FEATURES) < demoLow.STAGE1_THRESHOLD ∧
    (predict_machine_failure demoLow [("Air_temperature", (298 : ℚ))] =
      Except.ok ⟨0, round3 (demoLow.stage1Proba (reindex
        [("Air_temperature", (298 : ℚ))] demoLow.STAGE1_FEATURES)), none⟩ ∧
    (predict_machine_failure_instr demoLow [("Air_temperature", (298 : ℚ))]).2 = 0) :=
  ⟨by norm_num [demoLow],
   gate_short_circuit demoLow [("Air_temperature", (298 : ℚ))] (by norm_num [demoLow])⟩

/-- C2: every `PredictionResult` returned by `predict_machine_failure`
satisfies `failure == 0 ↔ failure_types == null` and
`failure == 1 → failure_types` is a non-empty mapping. -/
theorem result_invariants (A : Artifacts) (input_data : List (String × ℚ))
    (r : PredictionResult)
    (h : predict_machine_failure A input_data = Except.ok r) :
    (r.failure = 0 ↔ r.failure_types = none) ∧
    (r.failure = 1 → ∃ ft, r.failure_types = some ft ∧ ft ≠ []) := by
  simp only [predict_machine_failure] at h
  by_cases hp : A.stage1Proba (reindex input_data A.STAGE1_FEATURES) <
      A.STAGE1_THRESHOLD
  · rw [if_pos hp] at h
    cases h
    simp
  · rw [if_neg hp] at h
    cases hdl : detectLoop A.FAILURE_THRESHOLDS
        (A.stage2Proba (reindex input_data A.STAGE1_FEATURES)) 0
        A.FAILURE_COLS with
    | error e => rw [hdl] at h; cases h
    | ok ft =>
        rw [hdl] at h
        dsimp only at h
        cases h
        refine ⟨by simp, fun _ => ⟨_, rfl, ?_⟩⟩
        by_cases hft : ft.isEmpty
        · simp [hft]
        · simp only [hft, if_false]
          simpa [List.isEmpty_iff] using hft

theorem result_invariants_witness :
    (predict_machine_failure demoHigh
        [("Air_temperature", (298 : ℚ)), ("Torque", (40 : ℚ))] =
      Except.ok ⟨1, round3 (4 / 5), some [("TWF", round3 (9 / 10))]⟩) ∧
    ((PredictionResult.mk 1 (round3 (4 / 5)) (some [("TWF", round3 (9 / 10))])).failure = 0 ↔
      (PredictionResult.mk 1 (round3 (4 / 5)) (some [("TWF", round3 (9 / 10))])).failure_types = none) ∧
    ((PredictionResult.mk 1 (round3 (4 / 5)) (some [("TWF", round3 (9 / 10))])).failure = 1 →
      ∃ ft, (PredictionResult.mk 1 (round3 (4 / 5)) (some [("TWF", round3 (9 / 10))])).failure_types =
        some ft ∧ ft ≠ []) := by
  have hev : predict_machine_failure demoHigh
      [("Air_temperature", (298 : ℚ)), ("Torque", (40 : ℚ))] =
      Except.ok ⟨1, round3 (4 / 5), some [("TWF", round3 (9 / 10))]⟩ := by
    have hs : ("HDF" == "TWF") = false := rfl
    simp only [predict_machine_failure, demoHigh, reindex, detectLoop,
      List.lookup, hs]
    norm_num
  exact ⟨hev, result_invariants demoHigh
    [("Air_temperature", (298 : ℚ)), ("Torque", (40 : ℚ))] _ hev⟩

/-- When the gate fires and the per-mode threshold mapping is complete,
the call completes with `failure = 1` and the rounded gate probability. -/
lemma predict_ok_of_gate (A : Artifacts) (input_data : List (String × ℚ))
    (hge : A.STAGE1_THRESHOLD ≤
      A.stage1Proba (reindex input_data A.STAGE1_FEATURES))
    (hcomplete : ∀ col ∈ A.FAILURE_COLS,
      (A.FAILURE_THRESHOLDS.lookup col).isSome) :
    ∃ ft, predict_machine_failure A input_data =
      Except.ok ⟨1, round3 (A.stage1Proba (reindex input_data A.STAGE1_FEATURES)),
        some ft⟩ := by
  obtain ⟨l, hl⟩ := detectLoop_ok A.FAILURE_THRESHOLDS
    (A.stage2Proba (reindex input_data A.STAGE1_FEATURES)) A.FAILURE_COLS 0
    hcomplete
  refine ⟨if l.isEmpty then
      [("RNF", round3 (A.stage1Proba (reindex input_data A.STAGE1_FEATURES)))]
    else l, ?_⟩
  simp only [predict_machine_failure]
  rw [if_neg (not_lt.mpr hge), hl]

/-- C5: when the gate probability is at or above the gate threshold
(inclusive `≥`, so a probability exactly equal to the threshold triggers),
the returned record has `failure == 1` and
`failure_probability == round(p_gate, 3)`.  The per-mode threshold mapping
is assumed complete, so that Stage 2 completes without a `KeyError`. -/
theorem gate_triggers (A : Artifacts) (input_data : List (String × ℚ))
    (hge : A.STAGE1_THRESHOLD ≤
      A.stage1Proba (reindex input_data A.STAGE1_FEATURES))
    (hcomplete : ∀ col ∈ A.FAILURE_COLS,
      (A.FAILURE_THRESHOLDS.lookup col).isSome) :
    ∃ ft, predict_machine_failure A input_data =
      Except.ok ⟨1, round3 (A.stage1Proba (reindex input_data A.STAGE1_FEATURES)),
        some ft⟩ :=
  predict_ok_of_gate A input_data hge hcomplete

theorem gate_triggers_witness :
    (demoHigh.STAGE1_THRESHOLD ≤ demoHigh.stage1Proba (reindex
      [("Air_temperature", (298 : ℚ))] demoHigh.STAGE1_FEATURES)) ∧
    (∀ col ∈ demoHigh.FAILURE_COLS,
      (demoHigh.FAILURE_THRESHOLDS.lookup col).isSome) ∧
    ∃ ft, predict_machine_failure demoHigh [("Air_temperature", (298 : ℚ))] =
      Except.ok ⟨1, round3 (demoHigh.stage1Proba (reindex
        [("Air_temperature", (298 : ℚ))] demoHigh.STAGE1_FEATURES)),
        some ft⟩ := by
  have h1 : demoHigh.STAGE1_THRESHOLD ≤ demoHigh.stage1Proba (reindex
      [("Air_temperature", (298 : ℚ))] demoHigh.STAGE1_FEATURES) := by
    norm_num [demoHigh]
  have h2 : ∀ col ∈ demoHigh.FAILURE_COLS,
      (demoHigh.FAILURE_THRESHOLDS.lookup col).isSome := by
    intro col hcol
    simp only [demoHigh, List.mem_cons, List.not_mem_nil, or_false] at hcol
    rcases hcol with h | h <;> subst h <;> rfl
  exact ⟨h1, h2, gate_triggers demoHigh [("Air_temperature", (298 : ℚ))] h1 h2⟩

/-- C3: when the gate fires but no Stage-2 probability meets its per-mode
threshold, the returned `failure_types` is exactly the singleton mapping
`{"RNF": round(p_gate, 3)}` — the reserved fallback label, valued at the
*gate* probability. -/
theorem fallback_exactness (A : Artifacts) (input_data : List (String × ℚ))
    (hge : A.STAGE1_THRESHOLD ≤
      A.stage1Proba (reindex input_data A.STAGE1_FEATURES))
    (hcomplete : ∀ col ∈ A.FAILURE_COLS,
      (A.FAILURE_THRESHOLDS.lookup col).isSome)
    (hnone : ∀ j col t, A.FAILURE_COLS.get? j = some col →
      A.FAILURE_THRESHOLDS.lookup col = some t →
      A.stage2Proba (reindex input_data A.STAGE1_FEATURES) j < t) :
    predict_machine_failure A input_data =
      Except.ok ⟨1, round3 (A.stage1Proba (reindex input_data A.STAGE1_FEATURES)),
        some [("RNF",
          round3 (A.stage1Proba (reindex input_data A.STAGE1_FEATURES)))]⟩ := by
  obtain ⟨l, hl⟩ := detectLoop_ok A.FAILURE_THRESHOLDS
    (A.stage2Proba (reindex input_data A.STAGE1_FEATURES)) A.FAILURE_COLS 0
    hcomplete
  have hmem := detectLoop_mem A.FAILURE_THRESHOLDS
    (A.stage2Proba (reindex input_data A.STAGE1_FEATURES)) A.FAILURE_COLS 0 l hl
  have hnil : l = [] := by
    rcases l with _ | ⟨e, l'⟩
    · rfl
    · exfalso
      obtain ⟨j, col, hj, _, t, ht, hle⟩ := (hmem e).mp (by simp)
      have := hnone j col t hj ht
      rw [Nat.zero_add] at hle
      exact absurd hle (not_le.mpr this)
  subst hnil
  simp only [predict_machine_failure]
  rw [if_neg (not_lt.mpr hge), hl]
  simp

theorem fallback_exactness_witness :
    predict_machine_failure demoFallback [("Air_temperature", (298 : ℚ))] =
      Except.ok ⟨1, round3 (demoFallback.stage1Proba (reindex
          [("Air_temperature", (298 : ℚ))] demoFallback.STAGE1_FEATURES)),
        some [("RNF", round3 (demoFallback.stage1Proba (reindex
          [("Air_temperature", (298 : ℚ))] demoFallback.STAGE1_FEATURES)))]⟩ := by
  have h1 : demoFallback.STAGE1_THRESHOLD ≤ demoFallback.stage1Proba (reindex
      [("Air_temperature", (298 : ℚ))] demoFallback.STAGE1_FEATURES) := by
    norm_num [demoFallback]
  have h2 : ∀ col ∈ demoFallback.FAILURE_COLS,
      (demoFallback.FAILURE_THRESHOLDS.lookup col).isSome := by
    intro col hcol
    simp only [demoFallback, List.mem_cons, List.not_mem_nil, or_false] at hcol
    rcases hcol with h | h <;> subst h <;> rfl
  have h3 : ∀ j col t, demoFallback.FAILURE_COLS.get? j = some col →
      demoFallback.FAILURE_THRESHOLDS.lookup col = some t →
      demoFallback.stage2Proba (reindex [("Air_temperature", (298 : ℚ))]
        demoFallback.STAGE1_FEATURES) j < t := by
    intro j col t hj ht
    match j with
    | 0 =>
        simp only [demoFallback, List.get?] at hj
        cases hj
        have : t = 7 / 10 := by
          have : List.lookup "TWF" [("TWF", (7 : ℚ) / 10), ("HDF", 1 / 2)] =
              some (7 / 10) := rfl
          rw [demoFallback] at ht
          rw [this] at ht
          exact (Option.some.injEq _ _ ▸ ht).symm
        subst this
        norm_num [demoFallback]
    | 1 =>
        simp only [demoFallback, List.get?] at hj
        cases hj
        have : t = 1 / 2 := by
          have : List.lookup "HDF" [("TWF", (7 : ℚ) / 10), ("HDF", 1 / 2)] =
              some (1 / 2) := rfl
          rw [demoFallback] at ht
          rw [this] at ht
          exact (Option.some.injEq _ _ ▸ ht).symm
        subst this
        norm_num [demoFallback]
    | (n + 2) =>
        simp [demoFallback, List.get?] at hj
  exact fallback_exactness demoFallback [("Air_temperature", (298 : ℚ))] h1 h2 h3

/-- C4: when the gate fires, mode `FAILURE_COLS[j]` appears in the returned
`failure_types` iff its Stage-2 probability meets its own threshold
(inclusive `≥`), in which case it is paired with that probability rounded to
3 decimals; several modes can therefore appear simultaneously.  The mode
vocabulary is assumed duplicate-free, complete in the threshold mapping, and
not containing the reserved fallback label `"RNF"`. -/
theorem mode_detection_iff (A : Artifacts) (input_data : List (String × ℚ))
    (hge : A.STAGE1_THRESHOLD ≤
      A.stage1Proba (reindex input_data A.STAGE1_FEATURES))
    (hcomplete : ∀ col ∈ A.FAILURE_COLS,
      (A.FAILURE_THRESHOLDS.lookup col).isSome)
    (hnodup : A.FAILURE_COLS.Nodup)
    (hRNF : "RNF" ∉ A.FAILURE_COLS) :
    ∃ ft, predict_machine_failure A input_data =
      Except.ok ⟨1, round3 (A.stage1Proba (reindex input_data A.STAGE1_FEATURES)),
        some ft⟩ ∧
      ∀ j col t, A.FAILURE_COLS.get? j = some col →
        A.FAILURE_THRESHOLDS.lookup col = some t →
        ((col ∈ ft.map Prod.fst ↔
          t ≤ A.stage2Proba (reindex input_data A.STAGE1_FEATURES) j) ∧
         (t ≤ A.stage2Proba (reindex input_data A.STAGE1_FEATURES) j →
          (col, round3 (A.stage2Proba (reindex input_data A.STAGE1_FEATURES) j))
            ∈ ft)) := by
  obtain ⟨l, hl⟩ := detectLoop_ok A.FAILURE_THRESHOLDS
    (A.stage2Proba (reindex input_data A.STAGE1_FEATURES)) A.FAILURE_COLS 0
    hcomplete
  have hmem := detectLoop_mem A.FAILURE_THRESHOLDS
    (A.stage2Proba (reindex input_data A.STAGE1_FEATURES)) A.FAILURE_COLS 0 l hl
  refine ⟨if l.isEmpty then
      [("RNF", round3 (A.stage1Proba (reindex input_data A.STAGE1_FEATURES)))]
    else l, ?_, ?_⟩
  · simp only [predict_machine_failure]
    rw [if_neg (not_lt.mpr hge), hl]
  · intro j col t hj ht
    by_cases hle : t ≤ A.stage2Proba (reindex input_data A.STAGE1_FEATURES) j
    · have hcolin : (col,
          round3 (A.stage2Proba (reindex input_data A.STAGE1_FEATURES) j)) ∈ l :=
        (hmem _).mpr ⟨j, col, hj, by rw [Nat.zero_add], t, ht, by
          rw [Nat.zero_add]; exact hle⟩
      have hlne : l.isEmpty = false := by
        rcases l with _ | _
        · simp at hcolin
        · rfl
      rw [hlne]
      simp only [if_false, Bool.false_eq_true]
      refine ⟨⟨fun _ => hle, fun _ => ?_⟩, fun _ => hcolin⟩
      exact List.mem_map.mpr ⟨_, hcolin, rfl⟩
    · refine ⟨⟨fun hin => ?_, fun h => absurd h hle⟩, fun h => absurd h hle⟩
      exfalso
      by_cases hl0 : l.isEmpty
      · rw [hl0] at hin
        simp only [if_true, List.map_cons, List.map_nil] at hin
        have : col = "RNF" := by simpa using hin
        subst this
        exact hRNF (List.get?_mem hj)
      · rw [Bool.not_eq_true] at hl0
        rw [hl0] at hin
        simp only [if_false, Bool.false_eq_true] at hin
        obtain ⟨⟨col', v⟩, hv, hfst⟩ := List.mem_map.mp hin
        dsimp at hfst
        subst hfst
        obtain ⟨j', col2, hj', he, t', ht', hle'⟩ := (hmem _).mp hv
        have hcol2 : col2 = col' := by
          have := congrArg Prod.fst he
          simpa using this.symm
        subst hcol2
        have hjj : j = j' := by
          have hjlt : j < A.FAILURE_COLS.length := by
            rcases List.get?_eq_some.mp hj with ⟨hlt, _⟩
            exact hlt
          exact List.get?_inj hjlt hnodup (by rw [hj, hj'])
        subst hjj
        rw [Nat.zero_add] at hle'
        rw [ht] at ht'
        cases ht'
        exact hle hle'

theorem mode_detection_iff_witness :
    (predict_machine_failure demoBoth [("Air_temperature", (298 : ℚ))] =
      Except.ok ⟨1, round3 (4 / 5),
        some [("TWF", round3 (9 / 10)), ("HDF", round3 (9 / 10))]⟩) ∧
    ∃ ft, predict_machine_failure demoBoth [("Air_temperature", (298 : ℚ))] =
      Except.ok ⟨1, round3 (demoBoth.stage1Proba (reindex
        [("Air_temperature", (298 : ℚ))] demoBoth.STAGE1_FEATURES)), some ft⟩ ∧
      ∀ j col t, demoBoth.FAILURE_COLS.get? j = some col →
        demoBoth.FAILURE_THRESHOLDS.lookup col = some t →
        ((col ∈ ft.map Prod.fst ↔
          t ≤ demoBoth.stage2Proba (reindex [("Air_temperature", (298 : ℚ))]
            demoBoth.STAGE1_FEATURES) j) ∧
         (t ≤ demoBoth.stage2Proba (reindex [("Air_temperature", (298 : ℚ))]
            demoBoth.STAGE1_FEATURES) j →
          (col, round3 (demoBoth.stage2Proba (reindex
            [("Air_temperature", (298 : ℚ))] demoBoth.STAGE1_FEATURES) j)) ∈ ft)) := by
  constructor
  · have hs : ("HDF" == "TWF") = false := rfl
    simp only [predict_machine_failure, demoBoth, reindex, detectLoop,
      List.lookup, hs]
    norm_num
  · refine mode_detection_iff demoBoth [("Air_temperature", (298 : ℚ))]
      (by norm_num [demoBoth]) ?_ (by decide) (by decide)
    intro col hcol
    simp only [demoBoth, List.mem_cons, List.not_mem_nil, or_false] at hcol
    rcases hcol with h | h <;> subst h <;> rfl

/-! ### Module load (for C6): `predictor.py` lines 7–18 perform no
completeness check of the per-mode threshold mapping against the mode
vocabulary — they only unpack the loaded bundles into module globals. -/

/-- Module-level loading from `predictor.py` (lines 7–18): unpacks the gate
bundle, the Stage-2 classifier and the shared config into the module
globals.  It is a total function — no validation relates
`FAILURE_THRESHOLDS` to `FAILURE_COLS`, so a missing per-mode threshold key
cannot be surfaced here. -/
def load_module (stage1_threshold : ℚ) (stage1_features : List String)
    (stage1_model : List (Option ℚ) → ℚ)
    (stage2_model : List (Option ℚ) → Nat → ℚ)
    (failure_thresholds : List (String × ℚ))
    (failure_cols : List String) : Artifacts where
  STAGE1_THRESHOLD := stage1_threshold
  STAGE1_FEATURES := stage1_features
  stage1Proba := stage1_model
  stage2Proba := stage2_model
  FAILURE_THRESHOLDS := failure_thresholds
  FAILURE_COLS := failure_cols

/-- C6 counterexample: with `FAILURE_COLS = ["HDF"]` and an empty
`FAILURE_THRESHOLDS`, module load succeeds (it is a total function and
checks nothing), and the missing key surfaces only when an inference call
whose gate fires consults it — `predict_machine_failure` then raises
`KeyError: HDF` — refuting the claim that the error is raised at load time
rather than deferred to inference. -/
theorem missing_threshold_deferred_counterexample :
    predict_machine_failure
      (load_module (1 / 2) ["Torque"] (fun _ => 9 / 10) (fun _ _ => 9 / 10)
        [] ["HDF"])
      [("Torque", (40 : ℚ))] = Except.error ("KeyError: " ++ "HDF") := by
  simp only [predict_machine_failure, load_module, reindex, detectLoop,
    List.lookup]
  norm_num

/-- C6 amended: a per-mode threshold key missing for a vocabulary member is
not a silent default — the lookup raises a `KeyError` — but it is deferred
to the first inference call whose gate fires, not surfaced at load time
(`load_module` is total and performs no completeness check). -/
theorem missing_threshold_raises_at_inference (A : Artifacts)
    (input_data : List (String × ℚ)) (col : String)
    (hge : A.STAGE1_THRESHOLD ≤
      A.stage1Proba (reindex input_data A.STAGE1_FEATURES))
    (hcol : col ∈ A.FAILURE_COLS)
    (hmiss : A.FAILURE_THRESHOLDS.lookup col = none) :
    ∃ e, predict_machine_failure A input_data = Except.error e := by
  obtain ⟨e, he⟩ := detectLoop_error A.FAILURE_THRESHOLDS
    (A.stage2Proba (reindex input_data A.STAGE1_FEATURES)) A.FAILURE_COLS 0
    col hcol hmiss
  refine ⟨e, ?_⟩
  simp only [predict_machine_failure]
  rw [if_neg (not_lt.mpr hge), he]

theorem missing_threshold_raises_at_inference_witness :
    ∃ e, predict_machine_failure
      (load_module (1 / 2) ["Torque"] (fun _ => 9 / 10) (fun _ _ => 9 / 10)
        [] ["HDF"])
      [("Torque", (40 : ℚ))] = Except.error e :=
  missing_threshold_raises_at_inference
    (load_module (1 / 2) ["Torque"] (fun _ => 9 / 10) (fun _ _ => 9 / 10)
      [] ["HDF"])
    [("Torque", (40 : ℚ))] "HDF" (by norm_num [load_module]) (by decide) rfl

/-- `lookup` ignores entries removed by a filter that keeps every entry
with the looked-up key. -/
lemma lookup_filter (f : String) (p : String × ℚ → Bool)
    (hp : ∀ v : ℚ, p (f, v) = true) :
    ∀ l : List (String × ℚ), (l.filter p).lookup f = l.lookup f := by
  intro l
  induction l with
  | nil => rfl
  | cons kv rest ih =>
      obtain ⟨k, v⟩ := kv
      by_cases hk : f = k
      · subst hk
        rw [List.filter_cons, if_pos (by simp [hp v])]
        simp [List.lookup]
      · have hbeq : (f == k) = false := by
          simp only [beq_eq_false_iff_ne, ne_eq]; exact hk
        rw [List.filter_cons]
        by_cases hpk : p (k, v) = true
        · rw [if_pos (by simp [hpk])]
          simp only [List.lookup, hbeq]
          exact ih
        · rw [if_neg (by simpa using hpk)]
          rw [ih]
          simp only [List.lookup, hbeq]

/-- Keys absent from an association list look up to `none`. -/
lemma lookup_eq_none_of_not_mem_keys (f : String) :
    ∀ l : List (String × ℚ), f ∉ l.map Prod.fst → l.lookup f = none := by
  intro l
  induction l with
  | nil => intro _; rfl
  | cons kv rest ih =>
      obtain ⟨k, v⟩ := kv
      intro h
      simp only [List.map_cons, List.mem_cons, not_or] at h
      have hbeq : (f == k) = false := by
        simp only [beq_eq_false_iff_ne, ne_eq]; exact h.1
      simp only [List.lookup, hbeq]
      exact ih h.2

/-- C7: the feature aligner drops input fields outside the gate model's
vocabulary (the aligned row only depends on the input restricted to the
vocabulary), fills vocabulary fields absent from the input with the
undefined `none` placeholder (not zero), and that placeholder is silently
propagated into classifier inference: the call still returns a result
rather than rejecting the input. -/
theorem aligner_drops_and_fills (A : Artifacts)
    (input_data : List (String × ℚ))
    (hcomplete : ∀ col ∈ A.FAILURE_COLS,
      (A.FAILURE_THRESHOLDS.lookup col).isSome) :
    reindex input_data A.STAGE1_FEATURES =
      reindex (input_data.filter fun kv => decide (kv.1 ∈ A.STAGE1_FEATURES))
        A.STAGE1_FEATURES ∧
    (∀ j f, A.STAGE1_FEATURES.get? j = some f →
      f ∉ input_data.map Prod.fst →
      (reindex input_data A.STAGE1_FEATURES).get? j = some none) ∧
    (∃ r, predict_machine_failure A input_data = Except.ok r) := by
  refine ⟨?_, ?_, ?_⟩
  · unfold reindex
    apply List.map_congr_left
    intro f hf
    rw [lookup_filter f _ (fun v => decide_eq_true hf)]
  · intro j f hj hf
    unfold reindex
    rw [List.get?_map, hj]
    simp [lookup_eq_none_of_not_mem_keys f input_data hf]
  · by_cases hp : A.stage1Proba (reindex input_data A.STAGE1_FEATURES) <
        A.STAGE1_THRESHOLD
    · refine ⟨⟨0, round3 (A.stage1Proba (reindex input_data A.STAGE1_FEATURES)),
        none⟩, ?_⟩
      simp only [predict_machine_failure]
      rw [if_pos hp]
    · obtain ⟨ft, hft⟩ := predict_ok_of_gate A input_data (not_lt.mp hp) hcomplete
      exact ⟨_, hft⟩

theorem aligner_drops_and_fills_witness :
    (∀ col ∈ demoHigh.FAILURE_COLS,
      (demoHigh.FAILURE_THRESHOLDS.lookup col).isSome) ∧
    (reindex [("Air_temperature", (298 : ℚ)), ("Extra_field", (7 : ℚ))]
        demoHigh.STAGE1_FEATURES =
      reindex ([("Air_temperature", (298 : ℚ)), ("Extra_field", (7 : ℚ))].filter
          fun kv => decide (kv.1 ∈ demoHigh.STAGE1_FEATURES))
        demoHigh.STAGE1_FEATURES ∧
    (∀ j f, demoHigh.STAGE1_FEATURES.get? j = some f →
      f ∉ [("Air_temperature", (298 : ℚ)), ("Extra_field", (7 : ℚ))].map Prod.fst →
      (reindex [("Air_temperature", (298 : ℚ)), ("Extra_field", (7 : ℚ))]
        demoHigh.STAGE1_FEATURES).get? j = some none) ∧
    (∃ r, predict_machine_failure demoHigh
      [("Air_temperature", (298 : ℚ)), ("Extra_field", (7 : ℚ))] =
        Except.ok r)) := by
  have h2 : ∀ col ∈ demoHigh.FAILURE_COLS,
      (demoHigh.FAILURE_THRESHOLDS.lookup col).isSome := by
    intro col hcol
    simp only [demoHigh, List.mem_cons, List.not_mem_nil, or_false] at hcol
    rcases hcol with h | h <;> subst h <;> rfl
  exact ⟨h2, aligner_drops_and_fills demoHigh
    [("Air_temperature", (298 : ℚ)), ("Extra_field", (7 : ℚ))] h2⟩

/-- C8: rounding to 3 decimals happens only at result assembly.  Assuming
the classifier artifacts emit probabilities in `[0,1]`, every probability in
the returned record is a multiple of 1/1000 (3 decimal places) and lies in
`[0,1]`, while both threshold comparisons are taken on the full-precision
probabilities: `failure = 1` exactly when the unrounded gate probability is
at or above the gate threshold, and a mode key appears in `failure_types`
exactly when its unrounded Stage-2 probability is at or above its own
threshold (mode vocabulary assumed duplicate-free and not containing the
reserved fallback label `"RNF"`). -/
theorem rounding_at_boundary (A : Artifacts) (input_data : List (String × ℚ))
    (r : PredictionResult)
    (hp0 : 0 ≤ A.stage1Proba (reindex input_data A.STAGE1_FEATURES))
    (hp1 : A.stage1Proba (reindex input_data A.STAGE1_FEATURES) ≤ 1)
    (hq : ∀ j, 0 ≤ A.stage2Proba (reindex input_data A.STAGE1_FEATURES) j ∧
      A.stage2Proba (reindex input_data A.STAGE1_FEATURES) j ≤ 1)
    (hnodup : A.FAILURE_COLS.Nodup)
    (hRNF : "RNF" ∉ A.FAILURE_COLS)
    (h : predict_machine_failure A input_data = Except.ok r) :
    (0 ≤ r.failure_probability ∧ r.failure_probability ≤ 1 ∧
      (1000 * r.failure_probability).den = 1) ∧
    (∀ ft, r.failure_types = some ft → ∀ e ∈ ft,
      0 ≤ e.2 ∧ e.2 ≤ 1 ∧ (1000 * e.2).den = 1) ∧
    (r.failure = 1 ↔ A.STAGE1_THRESHOLD ≤
      A.stage1Proba (reindex input_data A.STAGE1_FEATURES)) ∧
    (∀ j col t, A.FAILURE_COLS.get? j = some col →
      A.FAILURE_THRESHOLDS.lookup col = some t →
      ∀ ft, r.failure_types = some ft →
        (col ∈ ft.map Prod.fst ↔
          t ≤ A.stage2Proba (reindex input_data A.STAGE1_FEATURES) j)) := by
  simp only [predict_machine_failure] at h
  by_cases hlt : A.stage1Proba (reindex input_data A.STAGE1_FEATURES) <
      A.STAGE1_THRESHOLD
  · rw [if_pos hlt] at h
    cases h
    refine ⟨⟨round3_nonneg _ hp0, round3_le_one _ hp1, round3_den _⟩, ?_, ?_, ?_⟩
    · intro ft hft
      exact absurd hft (by simp)
    · simp only []
      constructor
      · intro h01; exact absurd h01 (by simp)
      · intro hge; exact absurd hge (not_le.mpr hlt)
    · intro j col t _ _ ft hft
      exact absurd hft (by simp)
  · rw [if_neg hlt] at h
    cases hdl : detectLoop A.FAILURE_THRESHOLDS
        (A.stage2Proba (reindex input_data A.STAGE1_FEATURES)) 0
        A.FAILURE_COLS with
    | error e => rw [hdl] at h; cases h
    | ok l =>
        rw [hdl] at h
        dsimp only at h
        cases h
        have hmem := detectLoop_mem A.FAILURE_THRESHOLDS
          (A.stage2Proba (reindex input_data A.STAGE1_FEATURES))
          A.FAILURE_COLS 0 l hdl
        refine ⟨⟨round3_nonneg _ hp0, round3_le_one _ hp1, round3_den _⟩,
          ?_, by simp [not_lt.mp hlt], ?_⟩
        · intro ft hft e he
          simp only [Option.some.injEq] at hft
          subst hft
          by_cases hl0 : l.isEmpty
          · rw [hl0] at he
            simp only [if_true] at he
            rcases List.mem_cons.mp he with h1 | h1
            · subst h1
              exact ⟨round3_nonneg _ hp0, round3_le_one _ hp1, round3_den _⟩
            · simp at h1
          · rw [Bool.not_eq_true] at hl0
            rw [hl0] at he
            simp only [if_false, Bool.false_eq_true] at he
            obtain ⟨j, col, _, heq, _, _, _⟩ := (hmem e).mp he
            subst heq
            obtain ⟨hq0, hq1⟩ := hq (0 + j)
            exact ⟨round3_nonneg _ hq0, round3_le_one _ hq1, round3_den _⟩
        · intro j col t hj ht ft hft
          simp only [Option.some.injEq] at hft
          subst hft
          by_cases hle : t ≤ A.stage2Proba (reindex input_data
              A.STAGE1_FEATURES) j
          · have hcolin : (col,
                round3 (A.stage2Proba (reindex input_data A.STAGE1_FEATURES) j))
                ∈ l :=
              (hmem _).mpr ⟨j, col, hj, by rw [Nat.zero_add], t, ht, by
                rw [Nat.zero_add]; exact hle⟩
            have hlne : l.isEmpty = false := by
              rcases l with _ | _
              · simp at hcolin
              · rfl
            rw [hlne]
            simp only [if_false, Bool.false_eq_true]
            exact ⟨fun _ => hle, fun _ => List.mem_map.mpr ⟨_, hcolin, rfl⟩⟩
          · refine ⟨fun hin => ?_, fun hge => absurd hge hle⟩
            exfalso
            by_cases hl0 : l.isEmpty
            · rw [hl0] at hin
              simp only [if_true, List.map_cons, List.map_nil] at hin
              have : col = "RNF" := by simpa using hin
              subst this
              exact hRNF (List.get?_mem hj)
            · rw [Bool.not_eq_true] at hl0
              rw [hl0] at hin
              simp only [if_false, Bool.false_eq_true] at hin
              obtain ⟨⟨col2, v⟩, hv, hfst⟩ := List.mem_map.mp hin
              dsimp at hfst
              subst hfst
              obtain ⟨j2, col3, hj2, he2, t2, ht2, hle2⟩ := (hmem _).mp hv
              have hcol3 : col3 = col2 := by
                have := congrArg Prod.fst he2
                simpa using this.symm
              subst hcol3
              have hjj : j = j2 := by
                have hjlt : j < A.FAILURE_COLS.length := by
                  rcases List.get?_eq_some.mp hj with ⟨hlt2, _⟩
                  exact hlt2
                exact List.get?_inj hjlt hnodup (by rw [hj, hj2])
              subst hjj
              rw [Nat.zero_add] at hle2
              rw [ht] at ht2
              cases ht2
              exact hle hle2

theorem rounding_at_boundary_witness :
    (predict_machine_failure demoHigh
        [("Air_temperature", (298 : ℚ)), ("Torque", (40 : ℚ))] =
      Except.ok ⟨1, round3 (4 / 5), some [("TWF", round3 (9 / 10))]⟩) ∧
    ((0 ≤ (PredictionResult.mk 1 (round3 (4 / 5))
        (some [("TWF", round3 (9 / 10))])).failure_probability ∧
      (PredictionResult.mk 1 (round3 (4 / 5))
        (some [("TWF", round3 (9 / 10))])).failure_probability ≤ 1 ∧
      (1000 * (PredictionResult.mk 1 (round3 (4 / 5))
        (some [("TWF", round3 (9 / 10))])).failure_probability).den = 1) ∧
    (∀ ft, (PredictionResult.mk 1 (round3 (4 / 5))
        (some [("TWF", round3 (9 / 10))])).failure_types = some ft →
      ∀ e ∈ ft, 0 ≤ e.2 ∧ e.2 ≤ 1 ∧ (1000 * e.2).den = 1) ∧
    ((PredictionResult.mk 1 (round3 (4 / 5))
        (some [("TWF", round3 (9 / 10))])).failure = 1 ↔
      demoHigh.STAGE1_THRESHOLD ≤ demoHigh.stage1Proba (reindex
        [("Air_temperature", (298 : ℚ)), ("Torque", (40 : ℚ))]
        demoHigh.STAGE1_FEATURES)) ∧
    (∀ j col t, demoHigh.FAILURE_COLS.get? j = some col →
      demoHigh.FAILURE_THRESHOLDS.lookup col = some t →
      ∀ ft, (PredictionResult.mk 1 (round3 (4 / 5))
          (some [("TWF", round3 (9 / 10))])).failure_types = some ft →
        (col ∈ ft.map Prod.fst ↔
          t ≤ demoHigh.stage2Proba (reindex
            [("Air_temperature", (298 : ℚ)), ("Torque", (40 : ℚ))]
            demoHigh.STAGE1_FEATURES) j))) := by
  have hev : predict_machine_failure demoHigh
      [("Air_temperature", (298 : ℚ)), ("Torque", (40 : ℚ))] =
      Except.ok ⟨1, round3 (4 / 5), some [("TWF", round3 (9 / 10))]⟩ := by
    have hs : ("HDF" == "TWF") = false := rfl
    simp only [predict_machine_failure, demoHigh, reindex, detectLoop,
      List.lookup, hs]
    norm_num
  refine ⟨hev, rounding_at_boundary demoHigh
    [("Air_temperature", (298 : ℚ)), ("Torque", (40 : ℚ))] _
    (by norm_num [demoHigh]) (by norm_num [demoHigh]) ?_ (by decide)
    (by decide) hev⟩
  intro j
  simp only [demoHigh]
  by_cases hj : j = 0 <;> simp [hj] <;> norm_num

/-- State-threading rendition of `predict_machine_failure`: the module
globals (`STAGE1_FEATURES`, `stage1_model`, `STAGE1_THRESHOLD`,
`stage2_model`, `FAILURE_THRESHOLDS`, `FAILURE_COLS`) live in a state cell
that each access reads with `get`.  The body of `predictor.py` lines 21–59
contains no assignment to any module global, so no `set` occurs. -/
def predict_machine_failure_state (input_data : List (String × ℚ)) :
    StateM Artifacts (Except String PredictionResult) := do
  let X := reindex input_data (← get).STAGE1_FEATURES
  let p_fail := (← get).stage1Proba X
  if p_fail < (← get).STAGE1_THRESHOLD then
    pure (Except.ok ⟨0, round3 p_fail, none⟩)
  else
    match detectLoop (← get).FAILURE_THRESHOLDS ((← get).stage2Proba X) 0
        (← get).FAILURE_COLS with
    | Except.error e => pure (Except.error e)
    | Except.ok failure_types =>
        let failure_types :=
          if failure_types.isEmpty then [("RNF", round3 p_fail)]
          else failure_types
        pure (Except.ok ⟨1, round3 p_fail, some failure_types⟩)

/-- C9: inference is a pure, deterministic function of the input record and
the loaded artifacts.  Two successive calls sharing the artifact state
return the same value — the pure `predict_machine_failure` of (artifacts,
input) — and leave the shared artifacts unchanged. -/
lemma predict_state_run (A : Artifacts) (input_data : List (String × ℚ)) :
    (predict_machine_failure_state input_data).run A =
      (predict_machine_failure A input_data, A) := by
  simp only [predict_machine_failure_state, predict_machine_failure,
    StateT.run_bind, StateT.run_get, bind_pure_comp, Id.map_eq, StateT.run_map]
  by_cases hlt : A.stage1Proba (reindex input_data A.STAGE1_FEATURES) <
      A.STAGE1_THRESHOLD
  · simp [hlt, StateT.run, Bind.bind, StateT.bind, get, getThe,
      MonadStateOf.get, StateT.get, pure, StateT.pure]
  · simp only [hlt, if_false]
    cases hdl : detectLoop A.FAILURE_THRESHOLDS
        (A.stage2Proba (reindex input_data A.STAGE1_FEATURES)) 0
        A.FAILURE_COLS <;>
      simp [hlt, hdl, StateT.run, Bind.bind, StateT.bind, get, getThe,
        MonadStateOf.get, StateT.get, pure, StateT.pure]

/-- C9: inference is a pure, deterministic function of the input record and
the loaded artifacts.  Two successive calls sharing the artifact state
return the same value — the pure `predict_machine_failure` of (artifacts,
input) — and leave the shared artifacts unchanged. -/
theorem inference_pure_deterministic (A : Artifacts)
    (input_data : List (String × ℚ)) :
    ((do
      let r1 ← predict_machine_failure_state input_data
      let r2 ← predict_machine_failure_state input_data
      pure (r1, r2)) : StateM Artifacts _).run A =
      ((predict_machine_failure A input_data,
        predict_machine_failure A input_data), A) := by
  have h := predict_state_run A input_data
  simp only [StateT.run_bind, h, StateT.run_pure, Id.bind_eq, Id.pure_eq]

/-! ### `src/predict.py`: the `Predictor` class (for C10) -/

/-- A loaded/trained model object as `Predictor` sees it: its two callables
and whether it exposes a `predict_proba` attribute. -/
structure PyModel where
  predictFn : List ℚ → List ℚ
  hasPredictProba : Bool
  predictProbaFn : List ℚ → List (List ℚ)

/-- Python exception classes raised by `Predictor`. -/
inductive PyError where
  | valueError (msg : String)
  | attributeError (msg : String)
deriving Repr, DecidableEq

/-- The `Predictor` object state: `self.model` (possibly `None`) and
`self.model_path`. -/
structure Predictor where
  model : Option PyModel
  model_path : Option String

/-- `Predictor.predict` (`predict.py` lines 78–96): raises `ValueError` when
`self.model is None`, otherwise returns `self.model.predict(X)` (an
exception from the model itself is re-raised unchanged, so the model call is
embedded as a total function). -/
def Predictor.predict (p : Predictor) (X : List ℚ) :
    Except PyError (List ℚ) :=
  match p.model with
  | none => Except.error
      (PyError.valueError "No model loaded. Load or train a model first.")
  | some m => Except.ok (m.predictFn X)

/-- `Predictor.predict_proba` (`predict.py` lines 98–119): raises
`ValueError` when `self.model is None`, then `AttributeError` when the model
has no `predict_proba`, otherwise returns `self.model.predict_proba(X)`. -/
def Predictor.predict_proba (p : Predictor) (X : List ℚ) :
    Except PyError (List (List ℚ)) :=
  match p.model with
  | none => Except.error
      (PyError.valueError "No model loaded. Load or train a model first.")
  | some m =>
      if m.hasPredictProba then Except.ok (m.predictProbaFn X)
      else Except.error
        (PyError.attributeError "Model does not support probability predictions.")

/-- C10: with no model loaded or trained (`self.model is None`), both
`Predictor.predict` and `Predictor.predict_proba` raise `ValueError`; and
`predict_proba` additionally raises `AttributeError` when the loaded model
does not expose `predict_proba`.  In each case an error is raised and no
prediction value is returned. -/
theorem predictor_error_handling (p : Predictor) (X : List ℚ) :
    (p.model = none →
      p.predict X = Except.error
        (PyError.valueError "No model loaded. Load or train a model first.") ∧
      p.predict_proba X = Except.error
        (PyError.valueError "No model loaded. Load or train a model first.")) ∧
    (∀ m, p.model = some m → m.hasPredictProba = false →
      p.predict_proba X = Except.error
        (PyError.attributeError "Model does not support probability predictions.")) := by
  constructor
  · intro hnone
    constructor <;> simp [Predictor.predict, Predictor.predict_proba, hnone]
  · intro m hm hno
    simp [Predictor.predict_proba, hm, hno]

theorem predictor_error_handling_witness :
    (Predictor.predict ⟨none, none⟩ [] = Except.error
      (PyError.valueError "No model loaded. Load or train a model first.") ∧
    Predictor.predict_proba ⟨none, none⟩ [] = Except.error
      (PyError.valueError "No model loaded. Load or train a model first.")) ∧
    Predictor.predict_proba ⟨some ⟨id, false, fun _ => []⟩, none⟩ [] =
      Except.error
        (PyError.attributeError "Model does not support probability predictions.") :=
  ⟨(predictor_error_handling ⟨none, none⟩ []).1 rfl,
   (predictor_error_handling ⟨some ⟨id, false, fun _ => []⟩, none⟩ []).2
     ⟨id, false, fun _ => []⟩ rfl rfl⟩
